import Mathlib

/-!
Verification of the connection-ingest pipeline of the linkerd2-proxy fork.

This file shallowly embeds the parts of the repository that the frozen
claims are about:

* the HTTP gateway (`src/linkerd/app/gateway/src/http.rs`):
  `NewHttpGateway::new_service`, `HttpGateway::new`, `HttpGateway::fwd_by`
  and `HttpGateway::call`;
* the serverside TLS machinery (`src/linkerd/tls/src/server/mod.rs`,
  `handshake.rs`): `detect`, `NewHandshake::new_service`, `Handshake::call`;
* the outbound per-request target (`src/linkerd/app/outbound/src/endpoint.rs`):
  `LogicalPerRequest::recognize`;
* the inbound port-skip switch (`src/linkerd/app/inbound/src/lib.rs`):
  `SkipByPort::use_primary` and the outermost switch of `Inbound::server`;
* the per-target single-flight cache, which has no source under `src/` and is
  modelled from the specification.

Machine integers (ports, bytes) are modelled as `Nat`; none of the embedded
code overflows or relies on wrapping. Byte streams are `List Nat`.
-/

/-- A socket address: `std::net::SocketAddr` (IP modelled as a list of
octets; only the port participates in the embedded logic). -/
structure SocketAddr where
  ip : List Nat
  port : Nat
deriving DecidableEq, Repr

/-- A named address with a port: `linkerd2_app_core::NameAddr`. -/
structure NameAddr where
  name : String
  port : Nat
deriving DecidableEq, Repr

/-- A routable destination expressed as name-or-socket:
`linkerd2_app_core::Addr`. -/
inductive Addr where
  | name (na : NameAddr)
  | socket (sa : SocketAddr)
deriving DecidableEq, Repr

/-- Port of an `Addr` (`Addr::port`). -/
def Addr.port : Addr → Nat
  | .name na => na.port
  | .socket sa => sa.port

/-- Named form of an `Addr`, when it has one (`Addr::name_addr`). -/
def Addr.nameAddr : Addr → Option NameAddr
  | .name na => Option.some na
  | .socket _ => Option.none

/-- The HTTP authority string of a `NameAddr`
(`NameAddr::as_http_authority().to_string()`, which renders `name:port`). -/
def NameAddr.asHttpAuthority (n : NameAddr) : String :=
  n.name ++ ":" ++ toString n.port

/-- HTTP protocol versions (`::http::Version`). -/
inductive HttpVersion where
  | h09
  | h10
  | h11
  | h2
  | h3
deriving DecidableEq, Repr

/-- An HTTP request, reduced to the data the embedded code inspects: the
version and the header list (name/value pairs, names already lowercased as
the `http` crate stores them; values restricted to the visible-ASCII strings
on which `HeaderValue::to_str` succeeds). -/
structure Request where
  version : HttpVersion
  headers : List (String × String)
deriving DecidableEq, Repr

/-- Values of the header `n`, in order (`HeaderMap::get_all`). -/
def headerValues (req : Request) (n : String) : List String :=
  req.headers.filterMap (fun p => if p.1 = n then Option.some p.2 else Option.none)

/-- Append one more value for header `n` (`HeaderMap::append`). -/
def appendHeader (req : Request) (n v : String) : Request :=
  Request.mk req.version (req.headers ++ [(n, v)])

/-- Overwrite the value of header `n`, dropping any previous values
(`HeaderMap::insert`; the position of the surviving entry is immaterial to
everything proved here, so the entry is placed at the end). -/
def insertHeader (req : Request) (n v : String) : Request :=
  Request.mk req.version (req.headers.filter (fun p => p.1 ≠ n) ++ [(n, v)])

/-! ## The HTTP gateway (`src/linkerd/app/gateway/src/http.rs`) -/

/-- A profile snapshot, reduced to the field the gateway reads:
`profiles::Receiver::borrow().name`. -/
structure GwProfile where
  name : Option String
deriving DecidableEq, Repr

/-- The inbound target consumed by the gateway
(`linkerd2_app_inbound::endpoint::Target`). `tls_client_id` is
`tls::Conditional::Some` modelled as `Option.some`. -/
structure InboundTarget where
  dst : Addr
  tlsClientId : Option String
  httpVersion : HttpVersion
  socketAddr : SocketAddr
deriving DecidableEq, Repr

/-- The gateway service state (`enum HttpGateway` in `http.rs`). The
`Outbound` variant's inner outbound service is not carried here; whether and
how it is invoked is recorded by `HttpGateway.call`'s outcome. -/
inductive HttpGateway where
  | noAuthority
  | noIdentity
  | badDomain (name : String)
  | outbound (localIdentity : String) (hostHeader : String) (forwardedHeader : String)
deriving DecidableEq, Repr

/-- Constructor `HttpGateway::new`: renders the `Host` header value and the
`Forwarded` header value from the destination and the two identities. -/
def HttpGateway.new (dst : NameAddr) (sourceIdentity localIdentity : String) : HttpGateway :=
  let host := dst.asHttpAuthority
  let fwd := "by=" ++ localIdentity ++ ";for=" ++ sourceIdentity ++ ";host=" ++ host
      ++ ";proto=https"
  HttpGateway.outbound localIdentity host fwd

/-- Splitting on a one-character separator, exactly as Rust's `str::split`
(and `String.splitOn` for a nonempty one-character pattern) behave: the
result is always nonempty, empty pieces are kept. Defined structurally over
the character list so that concrete instances evaluate by `decide`. -/
def splitOnSep (sep : Char) : List Char → List (List Char)
  | [] => [[]]
  | c :: rest =>
    match splitOnSep sep rest with
    | [] => [[c]]
    | p :: ps => if c = sep then [] :: p :: ps else (c :: p) :: ps

/-- Scan of the split segments of one `Forwarded` header value: the loop
body of `HttpGateway::fwd_by`. The first segment whose first `=`-separated
piece is exactly `by` decides the result (its second piece, if any). -/
def fwdByList : List (List Char) → Option (List Char)
  | [] => Option.none
  | kv :: rest =>
    match splitOnSep '=' kv with
    | k :: vs => if k = ['b', 'y'] then vs.head? else fwdByList rest
    | [] => fwdByList rest

/-- The header scan `HttpGateway::fwd_by`: split the value on `;`, return
the value of the first `by=` parameter. -/
def HttpGateway.fwd_by (fwd : String) : Option String :=
  (fwdByList (splitOnSep ';' fwd.toList)).map (fun cs => String.mk cs)

/-- Factory `NewHttpGateway::new_service`, written over the data it
inspects: the local identity (`tls::PeerIdentity`), the optional profile
and the inbound target. -/
def NewHttpGateway.new_service (localId : Option String) (profile : Option GwProfile)
    (target : InboundTarget) : HttpGateway :=
  match target.tlsClientId, localId with
  | Option.some src, Option.some lid =>
    match profile.bind (fun p => p.name) with
    | Option.some name => HttpGateway.new (NameAddr.mk name target.dst.port) src lid
    | Option.none =>
      match target.dst.nameAddr with
      | Option.some n => HttpGateway.badDomain n.name
      | Option.none => HttpGateway.noAuthority
  | _, _ => HttpGateway.noIdentity

/-- Outcome of one `HttpGateway::call`. `dispatched` means the inner
outbound service was invoked, with the (possibly rewritten) request; the
error constructors mirror the `HttpError` values built in `call`. -/
inductive GatewayOutcome where
  | gatewayLoop
  | notFound (msg : String)
  | identityRequired (msg : String)
  | dispatched (req : Request)
deriving DecidableEq, Repr

/-- The request path `HttpGateway::call`: reject a request whose `Forwarded`
headers show it already transited this gateway; otherwise append the
gateway's `Forwarded` header, overwrite `Host` on HTTP/1.0 and HTTP/1.1, and
dispatch to the inner outbound service. -/
def HttpGateway.call (s : HttpGateway) (req : Request) : GatewayOutcome :=
  match s with
  | .outbound localIdentity hostHeader forwardedHeader =>
    if ∃ v ∈ headerValues req "forwarded", HttpGateway.fwd_by v = Option.some localIdentity then
      GatewayOutcome.gatewayLoop
    else
      let req1 := appendHeader req "forwarded" forwardedHeader
      let req2 :=
        match req1.version with
        | .h11 | .h10 => insertHeader req1 "host" hostHeader
        | _ => req1
      GatewayOutcome.dispatched req2
  | .noAuthority => GatewayOutcome.notFound "no authority"
  | .noIdentity => GatewayOutcome.identityRequired "no identity"
  | .badDomain _ => GatewayOutcome.notFound "bad domain"

/-- Whether a gateway outcome invoked the inner outbound service. -/
def GatewayOutcome.isDispatched : GatewayOutcome → Bool
  | .dispatched _ => true
  | _ => false

/-- The request of a `dispatched` outcome. -/
def GatewayOutcome.dispatchedReq : GatewayOutcome → Option Request
  | .dispatched r => Option.some r
  | _ => Option.none

/-- Spec-level reading of "the header value contains a `by=` parameter whose
value equals `idv`": some `;`-segment of the value has first `=`-piece `by`
and second `=`-piece `idv`. Used to state claim C1 as written. -/
def hasByParam (v idv : String) : Prop :=
  ∃ seg ∈ splitOnSep ';' v.toList,
    (splitOnSep '=' seg).head? = Option.some ['b', 'y'] ∧
      ((splitOnSep '=' seg).drop 1).head? = Option.some idv.toList

instance (v idv : String) : Decidable (hasByParam v idv) := by
  unfold hasByParam
  infer_instance

/-! ## Serverside TLS (`src/linkerd/tls/src/server/mod.rs`, `handshake.rs`) -/

/-- A serverside connection's TLS status (`enum ServerTls`). Identities and
ALPN protocols are modelled as strings. -/
inductive ServerTls where
  | established (clientId : Option String) (negotiatedProtocol : Option String)
  | passthru (sni : String)
deriving DecidableEq, Repr

/-- Reasons for not establishing TLS (`enum NoServerTls`). Per the enum's
doc comments in `mod.rs`: `disabled` means identity is administratively
disabled; `noClientHello` means no TLS ClientHello was detected. -/
inductive NoServerTls where
  | disabled
  | loopback
  | portSkipped
  | noClientHello
deriving DecidableEq, Repr

/-- Type `ConditionalServerTls = Conditional<ServerTls, NoServerTls>`. -/
inductive ConditionalServerTls where
  | some (tls : ServerTls)
  | none (reason : NoServerTls)
deriving DecidableEq, Repr

/-- The service built by `NewHandshake::new_service` (`enum Handshake`).
`enabled` will run a server TLS handshake on `call`; `disabled` carries the
`ConditionalServerTls` with which the inner stack was built, and forwards
the raw stream on `call`. The `target`, server `Config` and inner
new-service values are not carried: none of them affects the embedded
decision. -/
inductive Handshake where
  | enabled (localId : String)
  | disabled (tls : ConditionalServerTls)
deriving DecidableEq, Repr

/-- Factory `NewHandshake::new_service`, over the data it inspects: the
optional local identity (`Option<L>` with `L : Param<LocalId>`, reduced to
the local identity name) and the detected SNI (`Option<ServerId>`). The
three match arms appear in the source's order. -/
def NewHandshake.new_service (identity : Option String) (sni : Option String) : Handshake :=
  match identity, sni with
  | Option.some lid, Option.some s =>
    if s = lid then Handshake.enabled lid
    else Handshake.disabled (ConditionalServerTls.some (ServerTls.passthru s))
  | Option.none, _ => Handshake.disabled (ConditionalServerTls.none NoServerTls.noClientHello)
  | _, Option.none => Handshake.disabled (ConditionalServerTls.none NoServerTls.disabled)

/-- What one `Handshake::call` does with the accepted stream: `tlsAccept`
models the `Enabled` arm (run `tokio_rustls::TlsAcceptor::accept` on the
stream), `forwardRaw` models the `Disabled` arm (pass the unmodified stream
to the inner stack as `EitherIo::Left`, together with the recorded TLS
status). Streams are byte lists. -/
inductive HandshakeStep where
  | tlsAccept (io : List Nat)
  | forwardRaw (tls : ConditionalServerTls) (io : List Nat)
deriving DecidableEq, Repr

/-- The connection path `Handshake::call`. -/
def Handshake.call (h : Handshake) (io : List Nat) : HandshakeStep :=
  match h with
  | .enabled _ => HandshakeStep.tlsAccept io
  | .disabled tls => HandshakeStep.forwardRaw tls io

/-- Whether the factory decided to perform a server TLS handshake. -/
def Handshake.isEnabled : Handshake → Bool
  | .enabled _ => true
  | .disabled _ => false

/-- Result of `client_hello::parse_sni`: `Ok(Option<ServerId>)` when parsing
completes (an SNI may or may not be present), `Err(Incomplete)` when more
data is needed. The parser itself lives in `client_hello.rs`, which is not
under `src/`; it is kept abstract as a function parameter. -/
inductive ParseRes where
  | found (sni : Option String)
  | incomplete
deriving DecidableEq, Repr

/-- The buffered-read loop of `detect` in `tls/src/server/mod.rs`
(lines 127-147). `chunks` schedules the sizes successive `read_buf` calls
return, `cap` is the buffer capacity (`BytesMut::capacity`, initially 8192
and only ever growing), `buf` is the data consumed from the stream so far,
`rest` the unconsumed remainder of the stream. The pair returned is the
detected SNI and the byte sequence the downstream stream will yield
(prefix followed by the unconsumed remainder). On `Ok(sni)` the source
returns `(sni, io.into())` - a `PrefixedIo` with an empty prefix - so the
consumed `buf` is not prepended there. -/
def detectLoop (parse : List Nat → ParseRes) :
    List Nat → Nat → List Nat → List Nat → Option String × List Nat
  | [], _, buf, rest => (Option.none, buf ++ rest)
  | c :: cs, cap, buf, rest =>
    let k := min c rest.length
    if k = 0 then (Option.none, buf ++ rest)
    else
      let buf2 := buf ++ rest.take k
      let rest2 := rest.drop k
      match parse buf2 with
      | ParseRes.found sni => (sni, rest2)
      | ParseRes.incomplete =>
        if cap = 0 then (Option.none, buf2 ++ rest2)
        else detectLoop parse cs (max cap buf2.length) buf2 rest2

/-- The SNI detector `detect` in `tls/src/server/mod.rs` (lines 96-148):
peek up to 512 bytes (non-destructively; the peek buffer is a zero-filled
512-byte array and `parse_sni` is applied to the whole array); if parsing is
incomplete, fall back to reading into a growable buffer of initial capacity
8192. Returns the detected SNI and the byte sequence yielded by the stream
handed downstream. -/
def detect (parse : List Nat → ParseRes) (stream : List Nat) (chunks : List Nat) :
    Option String × List Nat :=
  let peeked := stream.take 512
  let padded := peeked ++ List.replicate (512 - peeked.length) 0
  match parse padded with
  | ParseRes.found sni => (sni, stream)
  | ParseRes.incomplete => detectLoop parse chunks 8192 [] stream

/-! ## Outbound per-request target (`src/linkerd/app/outbound/src/endpoint.rs`) -/

/-- The outbound logical target (`struct Logical` in `endpoint.rs`). -/
structure Logical where
  dst : Addr
  orig_target : SocketAddr
deriving DecidableEq, Repr

/-- The per-request key function `LogicalPerRequest::recognize`
(lines 268-305). The three header/URI extractors
(`http_request_l5d_override_dst_addr`, `http_request_authority_addr`,
`http_request_host_addr`) live in `linkerd2_app_core` outside `src/`, so
they are abstract parameters; `Result<Addr, _>` with an ignored error is
modelled as `Option Addr`. `targetAddr` is `listen::Addrs::target_addr()`,
the socket's original destination. -/
def recognize (overrideDst authorityDst hostDst : Request → Option Addr)
    (targetAddr : SocketAddr) (req : Request) : Logical :=
  let dst :=
    match overrideDst req with
    | Option.some a => a
    | Option.none =>
      match authorityDst req with
      | Option.some a => a
      | Option.none =>
        match hostDst req with
        | Option.some a => a
        | Option.none => Addr.socket targetAddr
  Logical.mk dst targetAddr

/-! ## Inbound port-skip switch (`src/linkerd/app/inbound/src/lib.rs`) -/

/-- The address pair of an accepted connection (`listen::Addrs`), reduced to
the two addresses the embedded code reads. -/
structure Addrs where
  target : SocketAddr
  peer : SocketAddr
deriving DecidableEq, Repr

/-- Struct `SkipByPort`: the `disable_protocol_detection_for_ports` set. -/
structure SkipByPort where
  ports : List Nat
deriving DecidableEq, Repr

/-- The switch predicate `SkipByPort::use_primary` (lines 469-473): the
primary (detection) path is used exactly when the original destination port
is not in the set. -/
def SkipByPort.use_primary (s : SkipByPort) (t : Addrs) : Bool :=
  !(s.ports.contains t.target.port)

/-- Tags for the layers of `Inbound::server` that the claims talk about. -/
inductive Layer where
  | tlsDetect
  | httpDetect
  | tcpForward
  | metricsAccept
  | requireIdentity
  | preventLoopSwitch
deriving DecidableEq, Repr

/-- The layers traversed, outermost first, by a connection on the primary
path of `Inbound::server` (lines 209-241): TLS detection, accept metrics,
the identity-required filter, the loop-prevention switch, then HTTP
detection. -/
def primaryLayers : List Layer :=
  [Layer.tlsDetect, Layer.metricsAccept, Layer.requireIdentity,
    Layer.preventLoopSwitch, Layer.httpDetect]

/-- The layers traversed by a connection on the alternate path of the
outermost switch (lines 233-240): accept metrics and the TCP forward to
loopback - no detection layer of any kind. -/
def skipLayers : List Layer :=
  [Layer.metricsAccept, Layer.tcpForward]

/-- Modelled from the spec: the `switch(predicate, alt_stack)` combinator of
section 4.1 ("at factory time, choose primary or alternate"); the
`push_switch(self.config.disable_protocol_detection_for_ports, ...)` call is
the outermost layer of `Inbound::server`, so a connection is routed at
accept time by `SkipByPort::use_primary` alone. Returns the layer list the
connection traverses. -/
def serverEntry (s : SkipByPort) (t : Addrs) : List Layer :=
  if s.use_primary t then primaryLayers else skipLayers

/-! ## Per-target single-flight cache

The cache implementation (`linkerd2_cache`) is not under `src/`. Modelled
from the spec: section 4.8 ("get_or_make(key): if a live entry exists,
return it; otherwise, start construction. While construction is in flight,
concurrent callers observe the same future.") and the two-phase pattern of
section 9 ("lock, insert a pending marker, release, await construction,
lock, replace marker with value, wake waiters"). Two callers, A and B, race
`get_or_make` on one key; every interleaving of their atomic phases is a
schedule. -/

/-- A caller's progress through `get_or_make`. -/
inductive CallerSt where
  | idle
  | constructing
  | waiting
  | done (v : Nat)
deriving DecidableEq, Repr

/-- The cache slot for the key: absent, holding a pending marker inserted by
a caller, or holding the constructed service instance (instances are
numbered so that distinct constructions are distinguishable). -/
inductive CacheEntry where
  | pending (owner : Bool)
  | ready (v : Nat)
deriving DecidableEq, Repr

/-- Global state of the race: the slot, the number of constructions started,
and the two callers' states (`true` names caller A, `false` caller B). -/
structure CacheState where
  entry : Option CacheEntry
  builds : Nat
  sA : CallerSt
  sB : CallerSt
deriving DecidableEq, Repr

/-- The state of caller `c`. -/
def CacheState.get (s : CacheState) (c : Bool) : CallerSt :=
  if c then s.sA else s.sB

/-- Replace the state of caller `c`. -/
def CacheState.set (s : CacheState) (c : Bool) (st : CallerSt) : CacheState :=
  if c then CacheState.mk s.entry s.builds st s.sB
  else CacheState.mk s.entry s.builds s.sA st

/-- One atomic phase of caller `c`, per the spec's two-phase pattern:
an idle caller locks and either inserts the pending marker (becoming the
constructor and counting one construction), subscribes to an in-flight
construction, or returns the live entry; the constructor's second phase
publishes the instance; a subscribed caller completes once the instance is
published (and is blocked, unchanged, before that); a finished caller does
nothing. -/
def stepCaller (s : CacheState) (c : Bool) : CacheState :=
  match s.get c with
  | CallerSt.idle =>
    match s.entry with
    | Option.none =>
      (CacheState.mk (Option.some (CacheEntry.pending c)) (s.builds + 1) s.sA s.sB).set c
        CallerSt.constructing
    | Option.some (CacheEntry.pending _) => s.set c CallerSt.waiting
    | Option.some (CacheEntry.ready v) => s.set c (CallerSt.done v)
  | CallerSt.constructing =>
    (CacheState.mk (Option.some (CacheEntry.ready (100 + s.builds))) s.builds s.sA s.sB).set c
      (CallerSt.done (100 + s.builds))
  | CallerSt.waiting =>
    match s.entry with
    | Option.some (CacheEntry.ready v) => s.set c (CallerSt.done v)
    | _ => s
  | CallerSt.done _ => s

/-- The initial state: no entry, no construction, both callers idle. -/
def cacheInit : CacheState :=
  CacheState.mk Option.none 0 CallerSt.idle CallerSt.idle

/-- Run a schedule (an arbitrary interleaving of the callers' phases). -/
def runCache (sched : List Bool) : CacheState :=
  sched.foldl stepCaller cacheInit

/-- Model of `client_hello::parse_sni` for a well-formed ClientHello of 515
bytes whose SNI parse completes only once all 515 bytes are available (the
spec's detector loop "retries parsing after each read" until the parser
reports success). -/
def clientHello515 : List Nat → ParseRes :=
  fun bs => if 515 ≤ bs.length then ParseRes.found (Option.some "example.com")
    else ParseRes.incomplete

/-- The single-flight invariant of the modelled cache: the build counter
matches the slot's occupancy, a constructor owns the pending marker, a
finished caller's value is the published instance. -/
def CacheInv (s : CacheState) : Prop :=
  (s.entry = Option.none → s.builds = 0) ∧
  ((∃ e, s.entry = Option.some e) → s.builds = 1) ∧
  (s.sA = CallerSt.constructing → s.entry = Option.some (CacheEntry.pending true)) ∧
  (s.sB = CallerSt.constructing → s.entry = Option.some (CacheEntry.pending false)) ∧
  (∀ v, s.sA = CallerSt.done v → s.entry = Option.some (CacheEntry.ready v)) ∧
  (∀ v, s.sB = CallerSt.done v → s.entry = Option.some (CacheEntry.ready v))

/-! ## Helper lemmas about header editing -/

/-- Appending a header entry extends the values seen for its own name and
leaves every other name's values unchanged. -/
theorem headerValues_appendHeader (req : Request) (n v m : String) :
    headerValues (appendHeader req n v) m
      = headerValues req m ++ (if n = m then [v] else []) := by
  by_cases h : n = m <;> simp [headerValues, appendHeader, List.filterMap_append, h]

theorem filterMap_values_filter_ne (l : List (String × String)) (n m : String) (hnm : n ≠ m) :
    (l.filter (fun p => p.1 ≠ n)).filterMap
        (fun p => if p.1 = m then Option.some p.2 else Option.none)
      = l.filterMap (fun p => if p.1 = m then Option.some p.2 else Option.none) := by
  induction l with
  | nil => rfl
  | cons p t ih =>
    simp only [ne_eq, decide_not] at ih ⊢
    by_cases h1 : p.1 = n
    · have h2 : ¬ p.1 = m := by rw [h1]; exact hnm
      simp [List.filter_cons, List.filterMap_cons, h1, h2, ih, hnm, Ne.symm hnm]
    · by_cases h2 : p.1 = m <;>
        simp [List.filter_cons, List.filterMap_cons, h1, h2, ih, hnm, Ne.symm hnm]

theorem filterMap_values_filter_self (l : List (String × String)) (n : String) :
    (l.filter (fun p => p.1 ≠ n)).filterMap
        (fun p => if p.1 = n then Option.some p.2 else Option.none) = [] := by
  induction l with
  | nil => rfl
  | cons p t ih =>
    simp only [ne_eq, decide_not] at ih ⊢
    by_cases h1 : p.1 = n <;> simp [List.filter_cons, List.filterMap_cons, h1, ih]

/-- Overwriting header `n` makes its value list exactly the new value. -/
theorem headerValues_insertHeader_self (req : Request) (n v : String) :
    headerValues (insertHeader req n v) n = [v] := by
  simp only [headerValues, insertHeader]
  rw [List.filterMap_append, filterMap_values_filter_self]
  simp

/-- Overwriting header `n` leaves every other name's values unchanged. -/
theorem headerValues_insertHeader_other (req : Request) (n v m : String) (h : n ≠ m) :
    headerValues (insertHeader req n v) m = headerValues req m := by
  simp only [headerValues, insertHeader]
  rw [List.filterMap_append, filterMap_values_filter_ne _ _ _ h]
  simp [h]

/-! ## Claims about the gateway request path -/

/-- Unfolding of `HttpGateway::call` on the no-loop path: the outcome is a
dispatch of the request with the gateway's `Forwarded` header appended and,
on HTTP/1.0 and HTTP/1.1, the `Host` header overwritten. -/
theorem gateway_call_dispatch_eq (lid host fwd : String) (req : Request)
    (hno : ¬ ∃ v ∈ headerValues req "forwarded", HttpGateway.fwd_by v = Option.some lid) :
    HttpGateway.call (HttpGateway.outbound lid host fwd) req
      = GatewayOutcome.dispatched
          (match req.version with
          | HttpVersion.h11 | HttpVersion.h10 =>
            insertHeader (appendHeader req "forwarded" fwd) "host" host
          | _ => appendHeader req "forwarded" fwd) := by
  simp only [HttpGateway.call]
  rw [if_neg hno]
  cases hv : req.version <;> simp [appendHeader, hv]

/-- C1 (counterexample): a `Forwarded` header value that contains a `by=`
parameter equal to the local identity - but not as its first `by=`
parameter - does not fail the request: the gateway dispatches it to the
inner outbound service, contradicting the claim as stated. -/
theorem gateway_loop_nonfirst_by_param_dispatched :
    hasByParam "by=other.id;by=gw.id" "gw.id" ∧
    (HttpGateway.call (HttpGateway.outbound "gw.id" "app.example.com:80" "fwd")
        (Request.mk HttpVersion.h2 [("forwarded", "by=other.id;by=gw.id")])).isDispatched
      = true := by
  constructor <;> decide

/-- C1 (amended): for every request handled by an `Outbound` gateway
service, if the first `by=` parameter of some incoming `Forwarded` header
equals the local identity, the call fails with the gateway-loop error and
the inner outbound service is not invoked; if no `Forwarded` header's first
`by=` parameter equals the local identity, the request is dispatched to the
outbound service. -/
theorem gateway_loop_first_by_param (lid host fwd : String) (req : Request) :
    ((∃ v ∈ headerValues req "forwarded", HttpGateway.fwd_by v = Option.some lid) →
      HttpGateway.call (HttpGateway.outbound lid host fwd) req = GatewayOutcome.gatewayLoop) ∧
    ((∀ v ∈ headerValues req "forwarded", HttpGateway.fwd_by v ≠ Option.some lid) →
      HttpGateway.call (HttpGateway.outbound lid host fwd) req ≠ GatewayOutcome.gatewayLoop ∧
        (HttpGateway.call (HttpGateway.outbound lid host fwd) req).isDispatched = true) := by
  constructor
  · intro h
    simp only [HttpGateway.call]
    rw [if_pos h]
  · intro h
    have hno : ¬ ∃ v ∈ headerValues req "forwarded", HttpGateway.fwd_by v = Option.some lid := by
      rintro ⟨v, hv, he⟩
      exact h v hv he
    rw [gateway_call_dispatch_eq lid host fwd req hno]
    exact ⟨by simp, by simp [GatewayOutcome.isDispatched]⟩

/-- C1 (witness): the amended claim at concrete requests - a request whose
`Forwarded` header's first `by=` parameter is the local identity is failed
with the loop error; one whose `by=` parameter differs is dispatched. -/
theorem gateway_loop_first_by_param_concrete :
    HttpGateway.call (HttpGateway.outbound "gw.id" "app.example.com:80" "fwd")
        (Request.mk HttpVersion.h11 [("forwarded", "by=gw.id;for=peer.id")])
      = GatewayOutcome.gatewayLoop ∧
    (HttpGateway.call (HttpGateway.outbound "gw.id" "app.example.com:80" "fwd")
        (Request.mk HttpVersion.h11 [("forwarded", "by=up.id;for=peer.id")])).isDispatched
      = true := by
  constructor
  · exact (gateway_loop_first_by_param "gw.id" "app.example.com:80" "fwd"
      (Request.mk HttpVersion.h11 [("forwarded", "by=gw.id;for=peer.id")])).1 (by decide)
  · exact ((gateway_loop_first_by_param "gw.id" "app.example.com:80" "fwd"
      (Request.mk HttpVersion.h11 [("forwarded", "by=up.id;for=peer.id")])).2 (by decide)).2

/-- C10: the `Forwarded`-header parameter scan recognizes a `by=` parameter
only when the text between the preceding `;` (or the start of the value)
and the `=` is exactly the lowercase string `by` with no surrounding
whitespace, and it considers only the first `by=` parameter of each header
value: with a space after the semicolon (`; by=gw.id`) the scan returns
nothing for that value and the request is not failed as a gateway loop. -/
theorem fwd_by_exact_key_first_param :
    HttpGateway.fwd_by "for=peer.id; by=gw.id" = Option.none ∧
    HttpGateway.fwd_by "by =gw.id" = Option.none ∧
    HttpGateway.fwd_by "BY=gw.id" = Option.none ∧
    HttpGateway.fwd_by "by=first.id;by=gw.id" = Option.some "first.id" ∧
    HttpGateway.fwd_by "proto=https;by=gw.id" = Option.some "gw.id" ∧
    hasByParam "for=peer.id; by=gw.id" "gw.id" = False ∧
    (HttpGateway.call (HttpGateway.outbound "gw.id" "app.example.com:80" "fwd")
        (Request.mk HttpVersion.h2 [("forwarded", "for=peer.id; by=gw.id")])).isDispatched
      = true := by
  refine ⟨by decide, by decide, by decide, by decide, by decide, ?_, by decide⟩
  simp only [eq_iff_iff, iff_false]
  decide

/-- C6: on the no-loop path of an `Outbound` gateway service built by
`HttpGateway::new`, exactly one `Forwarded` header of the exact form
`by=<local_id>;for=<peer_id>;host=<host>;proto=https` is appended (the
prior `Forwarded` values are preserved, the new one is last), and the
`Host` header is overwritten with the resolved authority exactly when the
request is HTTP/1.0 or HTTP/1.1 - requests of other versions keep their
`Host` values unchanged. -/
theorem gateway_forwarded_append_and_host_rewrite (dst : NameAddr) (src lid : String)
    (req : Request)
    (hno : ∀ v ∈ headerValues req "forwarded", HttpGateway.fwd_by v ≠ Option.some lid) :
    ((HttpGateway.call (HttpGateway.new dst src lid) req).dispatchedReq).map
        (fun r => headerValues r "forwarded")
      = Option.some (headerValues req "forwarded" ++
          ["by=" ++ lid ++ ";for=" ++ src ++ ";host=" ++ dst.asHttpAuthority ++ ";proto=https"]) ∧
    (req.version = HttpVersion.h10 ∨ req.version = HttpVersion.h11 →
      ((HttpGateway.call (HttpGateway.new dst src lid) req).dispatchedReq).map
          (fun r => headerValues r "host") = Option.some [dst.asHttpAuthority]) ∧
    (¬ (req.version = HttpVersion.h10 ∨ req.version = HttpVersion.h11) →
      ((HttpGateway.call (HttpGateway.new dst src lid) req).dispatchedReq).map
          (fun r => headerValues r "host") = Option.some (headerValues req "host")) := by
  have hno2 : ¬ ∃ v ∈ headerValues req "forwarded", HttpGateway.fwd_by v = Option.some lid := by
    rintro ⟨v, hv, he⟩
    exact hno v hv he
  simp only [HttpGateway.new]
  rw [gateway_call_dispatch_eq _ _ _ _ hno2]
  have hhf : ("host" : String) ≠ "forwarded" := by decide
  have hfh : ("forwarded" : String) ≠ "host" := by decide
  cases hv : req.version <;>
    simp [GatewayOutcome.dispatchedReq, hv, headerValues_insertHeader_self,
      headerValues_insertHeader_other _ _ _ _ hhf, headerValues_appendHeader, hfh]

/-- C6 (witness): the header rewriting at a concrete HTTP/1.1 request that
already carries a `Forwarded` value and a stale `Host` value. -/
theorem gateway_forwarded_append_and_host_rewrite_concrete :
    ((HttpGateway.call (HttpGateway.new (NameAddr.mk "web.example.com" 8080) "client.id" "gw.id")
          (Request.mk HttpVersion.h11
            [("host", "old.example.com"), ("forwarded", "for=up.id")])).dispatchedReq).map
        (fun r => headerValues r "forwarded")
      = Option.some
          (headerValues
              (Request.mk HttpVersion.h11
                [("host", "old.example.com"), ("forwarded", "for=up.id")]) "forwarded" ++
            ["by=" ++ "gw.id" ++ ";for=" ++ "client.id" ++ ";host="
              ++ (NameAddr.mk "web.example.com" 8080).asHttpAuthority ++ ";proto=https"]) ∧
    ((HttpGateway.call (HttpGateway.new (NameAddr.mk "web.example.com" 8080) "client.id" "gw.id")
          (Request.mk HttpVersion.h11
            [("host", "old.example.com"), ("forwarded", "for=up.id")])).dispatchedReq).map
        (fun r => headerValues r "host")
      = Option.some [(NameAddr.mk "web.example.com" 8080).asHttpAuthority] := by
  constructor
  · exact (gateway_forwarded_append_and_host_rewrite (NameAddr.mk "web.example.com" 8080)
      "client.id" "gw.id"
      (Request.mk HttpVersion.h11 [("host", "old.example.com"), ("forwarded", "for=up.id")])
      (by decide)).1
  · exact (gateway_forwarded_append_and_host_rewrite (NameAddr.mk "web.example.com" 8080)
      "client.id" "gw.id"
      (Request.mk HttpVersion.h11 [("host", "old.example.com"), ("forwarded", "for=up.id")])
      (by decide)).2.1 (Or.inr rfl)

/-! ## Claims about the gateway factory -/

/-- C5 (counterexample): a target whose destination is a valid named
authority, paired with a profile that provides no canonical name, is failed
with `bad_domain` - although a valid authority is available - contradicting
the claim that `bad_domain`/`no_authority` occur only when neither a profile
canonical name nor a valid authority is available. -/
theorem gateway_bad_domain_despite_authority :
    NewHttpGateway.new_service (Option.some "gw.id") (Option.some (GwProfile.mk Option.none))
        (InboundTarget.mk (Addr.name (NameAddr.mk "app.example.com" 8080))
          (Option.some "client.id") HttpVersion.h11 (SocketAddr.mk [10, 0, 0, 5] 4143))
      = HttpGateway.badDomain "app.example.com" ∧
    (Addr.name (NameAddr.mk "app.example.com" 8080)).nameAddr ≠ Option.none := by
  constructor
  · rfl
  · decide

/-- C5 (amended): when both identities are present, the destination host is
the profile's canonical name joined with the original destination port
whenever the profile provides one - the canonical name replaces any
header-derived name, whose only contribution is its port; when the profile
provides no canonical name the service always fails: with `bad_domain` when
the target destination is a named address, with `no_authority` when it is
not. -/
theorem gateway_canonical_name_and_failures (lid src name : String) (profile : Option GwProfile)
    (t : InboundTarget) (hsrc : t.tlsClientId = Option.some src) :
    (profile.bind (fun p => p.name) = Option.some name →
      NewHttpGateway.new_service (Option.some lid) profile t
        = HttpGateway.outbound lid (name ++ ":" ++ toString t.dst.port)
            ("by=" ++ lid ++ ";for=" ++ src ++ ";host=" ++ (name ++ ":" ++ toString t.dst.port)
              ++ ";proto=https")) ∧
    (profile.bind (fun p => p.name) = Option.none →
      (∀ na, t.dst.nameAddr = Option.some na →
        NewHttpGateway.new_service (Option.some lid) profile t = HttpGateway.badDomain na.name) ∧
      (t.dst.nameAddr = Option.none →
        NewHttpGateway.new_service (Option.some lid) profile t = HttpGateway.noAuthority)) := by
  refine ⟨?_, fun hp => ⟨?_, ?_⟩⟩
  · intro hp
    simp [NewHttpGateway.new_service, hsrc, hp, HttpGateway.new, NameAddr.asHttpAuthority]
  · intro na hna
    simp [NewHttpGateway.new_service, hsrc, hp, hna]
  · intro hna
    simp [NewHttpGateway.new_service, hsrc, hp, hna]

/-- C5 (witness): with a profile canonical name present, the gateway target
host is the canonical name with the original destination port - the
header-derived name `hdr.example.com` is replaced. -/
theorem gateway_canonical_name_and_failures_concrete :
    NewHttpGateway.new_service (Option.some "gw.id")
        (Option.some (GwProfile.mk (Option.some "svc.ns.svc.cluster.local")))
        (InboundTarget.mk (Addr.name (NameAddr.mk "hdr.example.com" 8080))
          (Option.some "client.id") HttpVersion.h11 (SocketAddr.mk [10, 0, 0, 5] 4143))
      = HttpGateway.outbound "gw.id"
          ("svc.ns.svc.cluster.local" ++ ":" ++ toString
            (InboundTarget.mk (Addr.name (NameAddr.mk "hdr.example.com" 8080))
              (Option.some "client.id") HttpVersion.h11
              (SocketAddr.mk [10, 0, 0, 5] 4143)).dst.port)
          ("by=" ++ "gw.id" ++ ";for=" ++ "client.id" ++ ";host="
            ++ ("svc.ns.svc.cluster.local" ++ ":" ++ toString
              (InboundTarget.mk (Addr.name (NameAddr.mk "hdr.example.com" 8080))
                (Option.some "client.id") HttpVersion.h11
                (SocketAddr.mk [10, 0, 0, 5] 4143)).dst.port)
            ++ ";proto=https") :=
  (gateway_canonical_name_and_failures "gw.id" "client.id" "svc.ns.svc.cluster.local"
    (Option.some (GwProfile.mk (Option.some "svc.ns.svc.cluster.local")))
    (InboundTarget.mk (Addr.name (NameAddr.mk "hdr.example.com" 8080))
      (Option.some "client.id") HttpVersion.h11 (SocketAddr.mk [10, 0, 0, 5] 4143))
    rfl).1 rfl

/-! ## Claims about serverside TLS -/

/-- C3: the code contradicts the claim (and the `NoServerTls` enum's own
doc comments in `mod.rs`): when the local identity is administratively
disabled (`identity = None`) the recorded reason is `NoClientHello`, and
when identity is configured but no ClientHello was detected (`sni = None`)
the recorded reason is `Disabled` - the two reasons of the claim, swapped.
This theorem evaluates `NewHandshake::new_service` at both failing
inputs. -/
theorem handshake_reasons_swapped :
    NewHandshake.new_service Option.none Option.none
        = Handshake.disabled (ConditionalServerTls.none NoServerTls.noClientHello) ∧
    NewHandshake.new_service Option.none (Option.some "app.example.com")
        = Handshake.disabled (ConditionalServerTls.none NoServerTls.noClientHello) ∧
    NewHandshake.new_service (Option.some "gw.example.com") Option.none
        = Handshake.disabled (ConditionalServerTls.none NoServerTls.disabled) :=
  ⟨rfl, rfl, rfl⟩

/-- C4: with a configured local identity and a detected SNI, a server TLS
handshake is performed if and only if the SNI equals the local identity;
when it differs, the service is built with TLS status `Passthru` carrying
exactly that SNI and `call` forwards the unmodified stream to the inner
stack. -/
theorem handshake_iff_sni_matches_local (lid s : String) :
    ((NewHandshake.new_service (Option.some lid) (Option.some s)).isEnabled = true ↔ s = lid) ∧
    (s ≠ lid →
      NewHandshake.new_service (Option.some lid) (Option.some s)
          = Handshake.disabled (ConditionalServerTls.some (ServerTls.passthru s)) ∧
      ∀ io, Handshake.call (NewHandshake.new_service (Option.some lid) (Option.some s)) io
          = HandshakeStep.forwardRaw (ConditionalServerTls.some (ServerTls.passthru s)) io) := by
  unfold NewHandshake.new_service
  by_cases h : s = lid <;> simp [h, Handshake.isEnabled, Handshake.call]

/-- C4 (witness): a matching SNI enables the handshake; a differing SNI
yields `Passthru` with that SNI and an opaquely forwarded stream. -/
theorem handshake_iff_sni_matches_local_concrete :
    (NewHandshake.new_service (Option.some "gw.example.com")
        (Option.some "gw.example.com")).isEnabled = true ∧
    NewHandshake.new_service (Option.some "gw.example.com") (Option.some "other.example.com")
        = Handshake.disabled (ConditionalServerTls.some (ServerTls.passthru "other.example.com")) ∧
    Handshake.call
        (NewHandshake.new_service (Option.some "gw.example.com")
          (Option.some "other.example.com")) [22, 3, 1]
      = HandshakeStep.forwardRaw
          (ConditionalServerTls.some (ServerTls.passthru "other.example.com")) [22, 3, 1] := by
  refine ⟨(handshake_iff_sni_matches_local "gw.example.com" "gw.example.com").1.mpr rfl, ?_, ?_⟩
  · exact ((handshake_iff_sni_matches_local "gw.example.com" "other.example.com").2
      (by decide)).1
  · exact ((handshake_iff_sni_matches_local "gw.example.com" "other.example.com").2
      (by decide)).2 [22, 3, 1]

set_option maxRecDepth 100000 in
/-- C2: the SNI detector is not lossless. When the 512-byte peek is
insufficient and the SNI is found only after buffering reads from the
stream, `detect` returns the stream with an empty prefix (`io.into()`),
dropping the buffered bytes: for a 515-byte ClientHello read in one chunk,
the downstream stream yields no bytes at all instead of the original 515.
The other two outcomes (success on peek, not-a-ClientHello) do preserve the
bytes, but this path contradicts the zero-byte-loss invariant. -/
theorem detect_buffered_sni_drops_bytes :
    detect clientHello515 (List.replicate 515 7) [515] = (Option.some "example.com", []) ∧
    (detect clientHello515 (List.replicate 515 7) [515]).2 ≠ List.replicate 515 7 := by
  constructor
  · rfl
  · decide

/-! ## Claims about the outbound per-request key -/

/-- C7: the outbound per-request key function returns a `Logical` whose
destination is the first of `l5d-dst-override` header, URI authority,
`Host` header, then the socket's original destination to parse to an
address, and whose `orig_target` is always the socket's original
destination regardless of which source won. -/
theorem recognize_priority_order (f g h : Request → Option Addr) (t : SocketAddr)
    (req : Request) :
    (recognize f g h t req).orig_target = t ∧
    (∀ a, f req = Option.some a → (recognize f g h t req).dst = a) ∧
    (f req = Option.none → ∀ a, g req = Option.some a → (recognize f g h t req).dst = a) ∧
    (f req = Option.none → g req = Option.none → ∀ a, h req = Option.some a →
      (recognize f g h t req).dst = a) ∧
    (f req = Option.none → g req = Option.none → h req = Option.none →
      (recognize f g h t req).dst = Addr.socket t) := by
  unfold recognize
  refine ⟨rfl, ?_, ?_, ?_, ?_⟩ <;> intros <;> simp_all

/-- C7 (witness): with the override and authority extractors failing and
the `Host` extractor producing a name, the key's destination is that name
and `orig_target` is the socket address. -/
theorem recognize_priority_order_concrete :
    (recognize (fun _ => Option.none) (fun _ => Option.none)
        (fun _ => Option.some (Addr.name (NameAddr.mk "web.example.com" 80)))
        (SocketAddr.mk [10, 0, 0, 1] 8080) (Request.mk HttpVersion.h11 [])).dst
      = Addr.name (NameAddr.mk "web.example.com" 80) ∧
    (recognize (fun _ => Option.none) (fun _ => Option.none)
        (fun _ => Option.some (Addr.name (NameAddr.mk "web.example.com" 80)))
        (SocketAddr.mk [10, 0, 0, 1] 8080) (Request.mk HttpVersion.h11 [])).orig_target
      = SocketAddr.mk [10, 0, 0, 1] 8080 := by
  refine ⟨?_, ?_⟩
  · exact (recognize_priority_order _ _ _ _ _).2.2.2.1 rfl rfl _ rfl
  · exact (recognize_priority_order _ _ _ _ _).1

/-! ## Claims about the inbound port-skip switch -/

/-- C8: a connection whose original destination port is in
`disable_protocol_detection_for_ports` is routed by the outermost switch to
the TCP-forward alternate stack, which contains neither the TLS-detection
nor the HTTP-detection layer; a connection on any other port takes the
primary detection path. -/
theorem skip_ports_bypass_detection (s : SkipByPort) (t : Addrs) :
    (t.target.port ∈ s.ports →
      serverEntry s t = skipLayers ∧ Layer.tlsDetect ∉ serverEntry s t ∧
        Layer.httpDetect ∉ serverEntry s t) ∧
    (t.target.port ∉ s.ports →
      serverEntry s t = primaryLayers ∧ Layer.tlsDetect ∈ serverEntry s t ∧
        Layer.httpDetect ∈ serverEntry s t) := by
  constructor
  · intro h
    refine ⟨?_, ?_, ?_⟩ <;>
      simp [serverEntry, SkipByPort.use_primary, h, skipLayers, primaryLayers]
  · intro h
    refine ⟨?_, ?_, ?_⟩ <;>
      simp [serverEntry, SkipByPort.use_primary, h, skipLayers, primaryLayers]

/-- C8 (witness): port 4143 in the skip set takes the forward-only path
with no TLS detection; port 80 outside it takes the primary path. -/
theorem skip_ports_bypass_detection_concrete :
    serverEntry (SkipByPort.mk [4143, 25]) (Addrs.mk (SocketAddr.mk [10, 0, 0, 2] 4143)
        (SocketAddr.mk [10, 0, 0, 3] 50233)) = skipLayers ∧
    Layer.tlsDetect ∉ serverEntry (SkipByPort.mk [4143, 25])
        (Addrs.mk (SocketAddr.mk [10, 0, 0, 2] 4143) (SocketAddr.mk [10, 0, 0, 3] 50233)) ∧
    serverEntry (SkipByPort.mk [4143, 25]) (Addrs.mk (SocketAddr.mk [10, 0, 0, 2] 80)
        (SocketAddr.mk [10, 0, 0, 3] 50233)) = primaryLayers := by
  refine ⟨?_, ?_, ?_⟩
  · exact ((skip_ports_bypass_detection (SkipByPort.mk [4143, 25]) _).1 (by decide)).1
  · exact ((skip_ports_bypass_detection (SkipByPort.mk [4143, 25]) _).1 (by decide)).2.1
  · exact ((skip_ports_bypass_detection (SkipByPort.mk [4143, 25]) _).2 (by decide)).1

/-! ## Claims about the per-target cache -/

theorem cacheInv_init : CacheInv cacheInit := by
  refine ⟨?_, ?_, ?_, ?_, ?_, ?_⟩ <;> intros <;> simp_all [cacheInit]

theorem cacheInv_step (s : CacheState) (c : Bool) (h : CacheInv s) :
    CacheInv (stepCaller s c) := by
  obtain ⟨e, b, sa, sb⟩ := s
  obtain ⟨h0, h1, hcA, hcB, hdA, hdB⟩ := h
  cases c <;> cases sa <;> cases sb <;>
    rcases e with _ | (⟨o⟩ | ⟨v⟩) <;>
    refine ⟨?_, ?_, ?_, ?_, ?_, ?_⟩ <;>
    intros <;>
    simp_all [stepCaller, CacheState.get, CacheState.set]

theorem cacheInv_foldl (l : List Bool) (s : CacheState) (h : CacheInv s) :
    CacheInv (l.foldl stepCaller s) := by
  induction l generalizing s with
  | nil => exact h
  | cons c t ih => exact ih _ (cacheInv_step s c h)

theorem cacheInv_run (sched : List Bool) : CacheInv (runCache sched) :=
  cacheInv_foldl sched cacheInit cacheInv_init

/-- C9: in any interleaving of two callers racing `get_or_make` on the same
key, if both complete then exactly one construction was performed and both
callers observe the same service instance. -/
theorem cache_single_flight (sched : List Bool) (va vb : Nat)
    (ha : (runCache sched).sA = CallerSt.done va)
    (hb : (runCache sched).sB = CallerSt.done vb) :
    (runCache sched).builds = 1 ∧ va = vb := by
  obtain ⟨h0, h1, hcA, hcB, hdA, hdB⟩ := cacheInv_run sched
  have ea := hdA va ha
  have eb := hdB vb hb
  constructor
  · exact h1 ⟨CacheEntry.ready va, ea⟩
  · rw [ea] at eb
    injection eb with eb2
    injection eb2

/-- C9 (witness): the fully overlapped schedule A,B,A,B - B arrives while
A's construction is in flight - completes both callers with the same
instance after a single construction. -/
theorem cache_single_flight_concrete :
    (runCache [true, false, true, false]).sA = CallerSt.done 101 ∧
    (runCache [true, false, true, false]).sB = CallerSt.done 101 ∧
    (runCache [true, false, true, false]).builds = 1 := by
  refine ⟨by decide, by decide, ?_⟩
  exact (cache_single_flight [true, false, true, false] 101 101 (by decide) (by decide)).1
